import Mathlib

/-!
Verification of the microloan marketplace front end (XRPL/RLUSD dApp).

Shallow embedding of the TypeScript business logic:
* `src/utils/constants.ts` — hex/UTF-8 memo codecs (`stringToHex`, `hexToString`),
  trust-line lookup (`checkTrustLineExists`), funding (`fundLoanWithRLUSD`,
  `fundLoanWithXRP`), trust scoring (`calculateTrustScore`), DID retrieval
  (`getCurrentDIDData`);
* `src/utils/supabase.ts` — `updateLoanFunding`;
* `src/pages/Index.tsx` — the `handleFundLoan` caller flow;
* `src/components/CreateLoanForm.tsx` — `handleSubmit` validation.

Strings are modelled as lists of Unicode code points (`List Nat`); network
fetches become `Option`-valued oracles (`none` = the request failed / threw);
thrown errors become `Except`; submitted ledger transactions are collected in
an explicit list so "no transaction was submitted" is a provable statement.
-/

namespace Microloan

/-- Code points of a Lean string literal, used to write the JS string
constants of the source (`'DID_VERIFICATION'`, `'microlend.did'`, ...). -/
def strCodes (s : String) : List Nat :=
  s.data.map Char.toNat

/-! ### Hex codecs (`stringToHex` / `hexToString`, constants.ts lines 1863-1882) -/

/-- One hex digit as an uppercase character code: models
`n.toString(16)` followed by `.toUpperCase()` for a single digit `n < 16`. -/
def hexUpperDigit (n : Nat) : Nat :=
  if n < 10 then 48 + n else 55 + n

/-- `byte.toString(16).padStart(2, '0')` then uppercased: two hex character
codes for a byte value `b < 256`. -/
def byteToHexUpper (b : Nat) : List Nat :=
  [hexUpperDigit (b / 16), hexUpperDigit (b % 16)]

/-- UTF-8 encoding of one code point (model of the platform `TextEncoder`
used by `stringToHex`; surrogate handling is out of scope, the repository
only encodes ASCII/BMP text). -/
def utf8EncodeChar (c : Nat) : List Nat :=
  if c < 128 then [c]
  else if c < 2048 then [192 + c / 64, 128 + c % 64]
  else if c < 65536 then [224 + c / 4096, 128 + (c / 64) % 64, 128 + c % 64]
  else [240 + c / 262144, 128 + (c / 4096) % 64, 128 + (c / 64) % 64, 128 + c % 64]

/-- `new TextEncoder().encode(str)` as a byte list. -/
def utf8Encode (s : List Nat) : List Nat :=
  s.flatMap utf8EncodeChar

/-- `stringToHex` (constants.ts 1863-1870): UTF-8 encode, then map every byte
to its zero-padded two-digit hex form, join, and uppercase. -/
def stringToHex (s : List Nat) : List Nat :=
  (utf8Encode s).flatMap byteToHexUpper

/-- Value of a hex digit character (`0-9`, `A-F`, `a-f`), as used by
`parseInt(chunk, 16)`. -/
def hexDigitVal? (c : Nat) : Option Nat :=
  if 48 ≤ c ∧ c ≤ 57 then some (c - 48)
  else if 65 ≤ c ∧ c ≤ 70 then some (c - 55)
  else if 97 ≤ c ∧ c ≤ 102 then some (c - 87)
  else none

/-- Accumulating loop of `parseInt(·, 16)`: consume further leading hex
digits, stop at the first non-digit. -/
def parseIntHexGo (acc : Nat) : List Nat → Nat
  | [] => acc
  | c :: rest =>
    match hexDigitVal? c with
    | some d => parseIntHexGo (acc * 16 + d) rest
    | none => acc

/-- `parseInt(chunk, 16)`: the longest leading run of hex digits, `none`
standing for `NaN` when the chunk starts with a non-digit or is empty. -/
def parseIntHex (chunk : List Nat) : Option Nat :=
  match chunk with
  | [] => none
  | c :: rest =>
    match hexDigitVal? c with
    | some d => some (parseIntHexGo d rest)
    | none => none

/-- The `Uint8Array` element coercion: `NaN` becomes `0`, values are reduced
modulo 256. -/
def toUint8 (v : Option Nat) : Nat :=
  (v.getD 0) % 256

/-- `hex.match(/.{1,2}/g)`: split a string into chunks of two characters, a
trailing odd character forming a final one-character chunk; `null` on the
empty string is mapped (via `|| []`) to the empty chunk list. -/
def chunkPairs : List Nat → List (List Nat)
  | [] => []
  | [a] => [[a]]
  | a :: b :: rest => [a, b] :: chunkPairs rest

/-- What the WHATWG UTF-8 decoder does with a byte met in the initial state:
emit it (ASCII), emit U+FFFD (invalid lead byte), or open a multi-byte
sequence with the code-point prefix, the count of continuation bytes still
needed, and the admissible range of the next byte. -/
inductive Utf8StartAction where
  | emit (c : Nat)
  | start (cp needed lower upper : Nat)

/-- Classification of a lead byte, following the WHATWG `utf-8 decoder`
ranges (including the tightened second-byte windows of `E0`/`ED`/`F0`/`F4`). -/
def utf8StartByte (b : Nat) : Utf8StartAction :=
  if b ≤ 127 then Utf8StartAction.emit b
  else if 194 ≤ b ∧ b ≤ 223 then Utf8StartAction.start (b % 32) 1 128 191
  else if b = 224 then Utf8StartAction.start (b % 16) 2 160 191
  else if (225 ≤ b ∧ b ≤ 236) ∨ b = 238 ∨ b = 239 then Utf8StartAction.start (b % 16) 2 128 191
  else if b = 237 then Utf8StartAction.start (b % 16) 2 128 159
  else if b = 240 then Utf8StartAction.start (b % 8) 3 144 191
  else if 241 ≤ b ∧ b ≤ 243 then Utf8StartAction.start (b % 8) 3 128 191
  else if b = 244 then Utf8StartAction.start (b % 8) 3 128 143
  else Utf8StartAction.emit 65533

/-- Byte-at-a-time loop of the WHATWG UTF-8 decoder in non-fatal mode:
`cp`/`needed`/`lower`/`upper` are the decoder state, malformed input emits
U+FFFD (an unexpected byte after a lead byte is reprocessed as a new lead
byte, as the standard restores it to the stream). -/
def utf8DecodeGo (cp needed lower upper : Nat) : List Nat → List Nat
  | [] => if needed = 0 then [] else [65533]
  | b :: rest =>
    if needed = 0 then
      match utf8StartByte b with
      | Utf8StartAction.emit c => c :: utf8DecodeGo 0 0 128 191 rest
      | Utf8StartAction.start cp2 n2 lo2 up2 => utf8DecodeGo cp2 n2 lo2 up2 rest
    else
      if lower ≤ b ∧ b ≤ upper then
        if needed = 1 then (cp * 64 + b % 64) :: utf8DecodeGo 0 0 128 191 rest
        else utf8DecodeGo (cp * 64 + b % 64) (needed - 1) 128 191 rest
      else
        match utf8StartByte b with
        | Utf8StartAction.emit c => 65533 :: c :: utf8DecodeGo 0 0 128 191 rest
        | Utf8StartAction.start cp2 n2 lo2 up2 => 65533 :: utf8DecodeGo cp2 n2 lo2 up2 rest

/-- UTF-8 decoding of a byte list: model of the platform `TextDecoder`
(default `utf-8`, non-fatal mode) used by `hexToString`. -/
def utf8Decode (bytes : List Nat) : List Nat :=
  utf8DecodeGo 0 0 128 191 bytes

/-- `hexToString` (constants.ts 1873-1882): split into two-character chunks,
`parseInt(·, 16)` each, build a `Uint8Array`, UTF-8 decode.  The wrapping
`try/catch` never fires in the model (every step is total). -/
def hexToString (hex : List Nat) : List Nat :=
  utf8Decode ((chunkPairs hex).map (fun ch => toUint8 (parseIntHex ch)))

/-! ### Constants (constants.ts lines 1856-1860) -/

/-- `RLUSD_ISSUER`: the fixed RLUSD issuer account on testnet. -/
def RLUSD_ISSUER : String := "rQhWct2fv4Vc4KRjRgMrxa8xPN9Zx9iLKV"

/-- `RLUSD_HEX`: `'RLUSD'` padded to the 40-hex-character XRPL currency code. -/
def RLUSD_HEX : List Nat := strCodes "524C555344000000000000000000000000000000"

/-! ### Trust-line lookup (`checkTrustLineExists`, constants.ts 1947-2017) -/

/-- Is `c` one of the whitespace code points removed by `String.trim` in JS?
(The common set; the exotic Unicode spaces never occur in this data.) -/
def isJsSpace (c : Nat) : Bool :=
  c = 9 ∨ c = 10 ∨ c = 11 ∨ c = 12 ∨ c = 13 ∨ c = 32

/-- `String.trim`: drop whitespace from both ends. -/
def trimCodes (s : List Nat) : List Nat :=
  ((s.dropWhile isJsSpace).reverse.dropWhile isJsSpace).reverse

/-- One character of the regex class `[0-9A-Fa-f]` (the `/^[0-9A-F]+$/i` test). -/
def isHexDigitChar (c : Nat) : Bool :=
  (48 ≤ c ∧ c ≤ 57) ∨ (65 ≤ c ∧ c ≤ 70) ∨ (97 ≤ c ∧ c ≤ 102)

/-- `str.match(/^[0-9A-F]+$/i)` is non-null: non-empty and all hex digits. -/
def matchesHexRegex (s : List Nat) : Bool :=
  !s.isEmpty && s.all isHexDigitChar

/-- One character of the regex class `[A-Za-z0-9]`. -/
def isAlnumChar (c : Nat) : Bool :=
  (48 ≤ c ∧ c ≤ 57) ∨ (65 ≤ c ∧ c ≤ 90) ∨ (97 ≤ c ∧ c ≤ 122)

/-- `str.match(/^[A-Za-z0-9]+$/)` is non-null: non-empty and all alphanumeric. -/
def matchesAlnumRegex (s : List Nat) : Bool :=
  !s.isEmpty && s.all isAlnumChar

/-- One `account_lines` response entry, with the fields the code reads:
`currency`, `account` (the line's counterparty/issuer) and `balance`. -/
structure TrustLineEntry where
  currency : List Nat
  account : String
  balance : String

/-- The currency name the trust-line check compares against (constants.ts
1984-1994): a long all-hex currency code is decoded, stripped of NUL bytes
and trimmed, and replaces the raw code when the result is a non-empty
alphanumeric string; otherwise the raw code is kept. -/
def lineDisplayCurrency (cur : List Nat) : List Nat :=
  if cur.length > 3 ∧ matchesHexRegex cur then
    let decoded := hexToString cur
    let cleanDecoded := trimCodes (decoded.filter (fun c => c ≠ 0))
    if !cleanDecoded.isEmpty ∧ matchesAlnumRegex cleanDecoded then cleanDecoded
    else cur
  else cur

/-- `checkTrustLineExists` (constants.ts 1947-2017).  `linesFetch` is the
`account_lines` request: `none` models the request throwing (the `catch`
returns `false`), `some lines` its successful result. -/
def checkTrustLineExists (linesFetch : Option (List TrustLineEntry))
    (currency : List Nat) (issuer : String) : Bool :=
  match linesFetch with
  | none => false
  | some lines =>
    lines.any fun line =>
      lineDisplayCurrency line.currency == currency && line.account == issuer

/-! ### Funding payments (`fundLoanWithRLUSD` / `fundLoanWithXRP`,
constants.ts 2688-2728 and 2966-2993) -/

/-- An XRPL payment `Amount`: an issued-currency amount object, or native
XRP given as a drops string. -/
inductive XRPAmount where
  | issued (currency : List Nat) (issuer : String) (value : ℚ)
  | drops (value : ℚ)
  deriving DecidableEq

/-- The JSON object serialized into `MemoData` by the funding functions
(`JSON.stringify({amount, loanNFTId, timestamp, note?})`), kept structured. -/
structure FundingMemoData where
  amount : ℚ
  loanNFTId : String
  timestamp : Nat
  note : Option String
  deriving DecidableEq

/-- One `Memos` entry of a funding payment: `MemoType` is the hex string
produced by `stringToHex`, `MemoData` the structured JSON payload. -/
structure PaymentMemo where
  MemoType : List Nat
  MemoData : FundingMemoData
  deriving DecidableEq

/-- A `Payment` transaction as built by the funding functions. -/
structure Payment where
  Account : String
  Destination : String
  Amount : XRPAmount
  Memos : List PaymentMemo
  deriving DecidableEq

/-- `fundLoanWithRLUSD` (constants.ts 2689-2728).  `linesFetch` feeds the
internal `checkTrustLineExists` call; `submit` is `client.submitAndWait`
(its `Except` error is whatever the library throws).  The second component
collects every transaction handed to `submit`, so "no transaction was
submitted" is the statement that this list is empty.  `now` is `Date.now()`. -/
def fundLoanWithRLUSD (linesFetch : Option (List TrustLineEntry))
    (funderAddress borrowerAddress : String) (amount : ℚ)
    (loanNFTId : Option String) (now : Nat)
    (submit : Payment → Except String String) :
    Except String String × List Payment :=
  let hasTrustLine := checkTrustLineExists linesFetch (strCodes "RLUSD") RLUSD_ISSUER
  if !hasTrustLine then
    (Except.error "MISSING_TRUSTLINE", [])
  else
    let payment : Payment :=
      { Account := funderAddress
        Destination := borrowerAddress
        Amount := XRPAmount.issued RLUSD_HEX RLUSD_ISSUER amount
        Memos := [{ MemoType := stringToHex (strCodes "LOAN_FUNDING_RLUSD")
                    MemoData := { amount := amount
                                  loanNFTId := loanNFTId.getD ""
                                  timestamp := now
                                  note := none } }] }
    (submit payment, [payment])

/-- `fundLoanWithXRP` (constants.ts 2966-2993): the XRP fallback payment,
amount converted to drops (`amount * 1000000`), with the distinct
`LOAN_FUNDING_XRP` memo annotation. -/
def fundLoanWithXRP (funderAddress borrowerAddress : String) (amount : ℚ)
    (loanNFTId : String) (now : Nat)
    (submit : Payment → Except String String) :
    Except String String × List Payment :=
  let payment : Payment :=
    { Account := funderAddress
      Destination := borrowerAddress
      Amount := XRPAmount.drops (amount * 1000000)
      Memos := [{ MemoType := stringToHex (strCodes "LOAN_FUNDING_XRP")
                  MemoData := { amount := amount
                                loanNFTId := loanNFTId
                                timestamp := now
                                note := some "Funded with XRP as fallback due to missing RLUSD trust line" } }] }
  (submit payment, [payment])

/-! ### Loan-record update (`updateLoanFunding`, supabase.ts 136-152) and the
funding caller flow (`handleFundLoan`, Index.tsx 396-546) -/

/-- The partial `DBLoan` row written by `updateLoanFunding`: funded amount,
status, and (only when a truthy hash was passed) the transaction hash. -/
structure LoanUpdate where
  funded_amount : ℚ
  status : String
  tx_hash : Option String
  deriving DecidableEq

/-- `updateLoanFunding` (supabase.ts 136-152): unconditionally writes the
new funded amount and `status: 'funded'`; `tx_hash` is included only when
`txHash` is truthy (present and non-empty). -/
def updateLoanFunding (newFundedAmount : ℚ) (txHash : Option String) : LoanUpdate :=
  { funded_amount := newFundedAmount
    status := "funded"
    tx_hash :=
      match txHash with
      | some h => if h ≠ "" then some h else none
      | none => none }

/-- The fields of a UI loan object read by `handleFundLoan`. -/
structure UILoan where
  id : String
  borrower : String
  amount : ℚ
  fundedAmount : ℚ
  nftId : String

/-- The observable outcome of one `handleFundLoan` run: every ledger
transaction submitted (in order) and every loan-record write issued. -/
structure FundFlowResult where
  payments : List Payment
  dbUpdates : List (String × LoanUpdate)

/-- `handleFundLoan` (Index.tsx 396-546), the funding decision flow: try
RLUSD first with the fixed demo amount 100; on success write the funding
update `min(fundedAmount + 100, amount)`.  On the `MISSING_TRUSTLINE` error
ask for confirmation (`window.confirm`, modelled by `userConfirmed`) and only
on an affirmative answer submit the XRP fallback payment, then write the same
funding update.  Any other error (or a declined confirmation, or an XRP
failure) only shows a toast — no further transaction and no record write. -/
def handleFundLoan (linesFetch : Option (List TrustLineEntry))
    (submitRLUSD submitXRP : Payment → Except String String)
    (userConfirmed : Bool) (userAddress : String) (loan : UILoan) (now : Nat) :
    FundFlowResult :=
  let fundingAmount : ℚ := 100
  let destination := if loan.borrower == "You" then userAddress else loan.borrower
  match fundLoanWithRLUSD linesFetch userAddress destination fundingAmount
      (some loan.nftId) now submitRLUSD with
  | (Except.ok txHash, submitted) =>
    let newFundedAmount := min (loan.fundedAmount + fundingAmount) loan.amount
    { payments := submitted
      dbUpdates := [(loan.id, updateLoanFunding newFundedAmount (some txHash))] }
  | (Except.error e, submitted) =>
    if e == "MISSING_TRUSTLINE" then
      if userConfirmed then
        match fundLoanWithXRP userAddress destination fundingAmount loan.nftId
            now submitXRP with
        | (Except.ok xrpTxHash, submitted2) =>
          let newFundedAmount := min (loan.fundedAmount + fundingAmount) loan.amount
          { payments := submitted ++ submitted2
            dbUpdates := [(loan.id, updateLoanFunding newFundedAmount (some xrpTxHash))] }
        | (Except.error _, submitted2) =>
          { payments := submitted ++ submitted2, dbUpdates := [] }
      else { payments := submitted, dbUpdates := [] }
    else { payments := submitted, dbUpdates := [] }

/-! ### Trust score (`calculateTrustScore`, constants.ts 3255-3376) -/

/-- One memo of a fetched ledger transaction (the `{Memo: {MemoType,
MemoData}}` wrapper flattened; both fields hex strings, `none` = absent). -/
structure LedgerMemo where
  MemoType : Option (List Nat)
  MemoData : Option (List Nat)

/-- A transaction from an `account_tx` response, with the fields the code
reads.  `Memos := none` models an absent `Memos` field. -/
structure LedgerTx where
  TransactionType : String
  Memos : Option (List LedgerMemo)

/-- Does one memo carry the DID marker?  `memo.Memo?.MemoType` must be
truthy (present, non-empty) and decode to `'DID_VERIFICATION'`
(constants.ts 3286-3297; `hexToString` is total, the `catch` is dead). -/
def hasDIDMemoType (memo : LedgerMemo) : Bool :=
  match memo.MemoType with
  | some mt => !mt.isEmpty && hexToString mt == strCodes "DID_VERIFICATION"
  | none => false

/-- The `transactions.find` predicate of `calculateTrustScore` (constants.ts
3278-3300): an `AccountSet` or `Payment` transaction carrying a
`DID_VERIFICATION` memo. -/
def isDIDTx (tx : LedgerTx) : Bool :=
  (tx.TransactionType == "AccountSet" || tx.TransactionType == "Payment")
    && ((tx.Memos.getD []).any hasDIDMemoType)

/-- The `account_data` fields read by `calculateTrustScore`: `Domain` (a hex
string, `none` = absent) and `Sequence` (`none` = absent, read as 0). -/
structure AccountData where
  Domain : Option (List Nat)
  Sequence : Option Nat

/-- Does the fetched account data carry the `microlend.did` domain marker
(constants.ts 3318-3325)?  `Domain` must be truthy (present, non-empty) and
decode to exactly `'microlend.did'`. -/
def hasDomainDIDCheck (ad : AccountData) : Bool :=
  match ad.Domain with
  | some d => !d.isEmpty && hexToString d == strCodes "microlend.did"
  | none => false

/-- `factors` of a trust score. -/
structure TrustFactors where
  hasDID : Bool
  transactionCount : Nat
  accountAge : Option Nat
  deriving DecidableEq

/-- A `TrustScore` result. -/
structure TrustScoreResult where
  score : Nat
  risk : String
  factors : TrustFactors
  deriving DecidableEq

/-- `calculateTrustScore` (constants.ts 3255-3376).  The two network reads
become oracles: `txFetch` is the `account_tx` request (`none` = it threw: the
outer `catch` returns the fail-closed default), `infoFetch` the `account_info`
request (`none` = it threw: the inner `catch` skips the domain check and the
age bonus).  All remaining computation is translated verbatim. -/
def calculateTrustScore (txFetch : Option (List LedgerTx))
    (infoFetch : Option AccountData) : TrustScoreResult :=
  match txFetch with
  | none =>
    { score := 0, risk := "high"
      factors := { hasDID := false, transactionCount := 0, accountAge := none } }
  | some transactions =>
    let transactionCount := transactions.length
    let didTransaction := transactions.any isDIDTx
    let transactionPoints := min (transactionCount / 10) 20
    let infoPart : Bool × Nat × Option Nat :=
      match infoFetch with
      | none => (false, 0, none)
      | some accountData =>
        let hasDomainDID := hasDomainDIDCheck accountData
        let sequence := accountData.Sequence.getD 0
        if sequence > 0 then (hasDomainDID, min (sequence / 50) 5, some sequence)
        else (hasDomainDID, 0, none)
    let hasDID := didTransaction || infoPart.1
    let score := transactionPoints + infoPart.2.1 + (if hasDID then 10 else 0)
    let risk := if score > 20 then "low" else if score ≥ 10 then "medium" else "high"
    { score := score, risk := risk
      factors := { hasDID := hasDID, transactionCount := transactionCount
                   accountAge := infoPart.2.2 } }

/-- Spec-side notion for the partial-failure claim: identity verification is
"establishable at all" for an account when either a DID transaction sits in
its fetched history or its on-ledger domain field decodes to the identity
marker (spec §4.1 step 3). -/
def identityEstablishable (txs : List LedgerTx) (ad : AccountData) : Bool :=
  txs.any isDIDTx || hasDomainDIDCheck ad

/-! ### DID retrieval (`getCurrentDIDData`, constants.ts 3388-3434) -/

/-- The fields `getCurrentDIDData` reads from the parsed memo JSON; `none`
models an absent (or falsy) field, defaulted by `|| ''` resp. `|| 0`. -/
structure DIDJson where
  name : Option String
  phone : Option String
  timestamp : Option Nat

/-- The record returned by `getCurrentDIDData`. -/
structure DIDData where
  name : String
  phone : String
  timestamp : Nat
  deriving DecidableEq

/-- The `Memos.find` predicate of `getCurrentDIDData` (constants.ts
3406-3413): `hexToString(memo.Memo?.MemoType || '')` equals
`'DID_VERIFICATION'`. -/
def isDIDVerificationMemo (memo : LedgerMemo) : Bool :=
  hexToString (memo.MemoType.getD []) == strCodes "DID_VERIFICATION"

/-- The `for` loop of `getCurrentDIDData` (constants.ts 3402-3428), translated
branch by branch.  `jsonParse` models the platform `JSON.parse` applied to the
decoded memo data (`none` = it threw; the `catch` does `continue`).  A
non-`AccountSet` transaction, an absent `Memos` field, an absent DID memo, a
falsy `MemoData`, and a failed parse all fall through to the next entry. -/
def didDataLoop (jsonParse : List Nat → Option DIDJson) :
    List LedgerTx → Option DIDData
  | [] => none
  | tx :: rest =>
    if tx.TransactionType == "AccountSet" && tx.Memos.isSome then
      match (tx.Memos.getD []).find? isDIDVerificationMemo with
      | some didMemo =>
        match didMemo.MemoData with
        | some memoData =>
          if !memoData.isEmpty then
            match jsonParse (hexToString memoData) with
            | some didData =>
              some { name := didData.name.getD ""
                     phone := didData.phone.getD ""
                     timestamp := didData.timestamp.getD 0 }
            | none => didDataLoop jsonParse rest
          else didDataLoop jsonParse rest
        | none => didDataLoop jsonParse rest
      | none => didDataLoop jsonParse rest
    else didDataLoop jsonParse rest

/-- `getCurrentDIDData` (constants.ts 3388-3434): fetch up to 50 transactions
(`txFetch`, `none` = the lookup threw: the outer `catch` returns `null`),
then scan them in response order (newest first per the `account_tx` API). -/
def getCurrentDIDData (jsonParse : List Nat → Option DIDJson)
    (txFetch : Option (List LedgerTx)) : Option DIDData :=
  match txFetch with
  | none => none
  | some transactions => didDataLoop jsonParse transactions

/-- Spec-side decoder of one transaction: `some` exactly when the entry is a
structurally valid identity claim (an `AccountSet` transaction whose first
`DID_VERIFICATION` memo has truthy data that parses), with the decoded
record. -/
def decodeDIDClaim (jsonParse : List Nat → Option DIDJson) (tx : LedgerTx) :
    Option DIDData :=
  if tx.TransactionType == "AccountSet" && tx.Memos.isSome then
    ((tx.Memos.getD []).find? isDIDVerificationMemo).bind fun didMemo =>
      didMemo.MemoData.bind fun memoData =>
        if !memoData.isEmpty then
          (jsonParse (hexToString memoData)).map fun didData =>
            { name := didData.name.getD ""
              phone := didData.phone.getD ""
              timestamp := didData.timestamp.getD 0 }
        else none
  else none

/-! ### Loan-form validation (`handleSubmit`, CreateLoanForm.tsx 89-139) -/

/-- How one `handleSubmit` call resolves before/at the network boundary:
every outcome except `submitted` shows a toast and returns without any
network call; `submitted` is the single path that proceeds to the NFT mint. -/
inductive LoanFormOutcome where
  | walletRequired
  | didRequired
  | missingInformation
  | invalidAmount
  | invalidInterestRate
  | submitted
  deriving DecidableEq

/-- The validation prefix of `handleSubmit` (CreateLoanForm.tsx 89-139).
`amountField`/`interestRateField` are the parsed numeric form fields
(`none` = the text field is empty, failing the truthiness check); `purpose`
and `duration` are the raw string fields. -/
def handleSubmitValidate (hasWallet userDidVerified : Bool)
    (amountField : Option ℚ) (purpose : String)
    (interestRateField : Option ℚ) (duration : String) : LoanFormOutcome :=
  if !hasWallet then LoanFormOutcome.walletRequired
  else if !userDidVerified then LoanFormOutcome.didRequired
  else if amountField.isNone || purpose == "" || interestRateField.isNone
      || duration == "" then LoanFormOutcome.missingInformation
  else
    let amount := amountField.getD 0
    let interestRate := interestRateField.getD 0
    if amount < 1 ∨ amount > 50000 then LoanFormOutcome.invalidAmount
    else if interestRate < 1/10 ∨ interestRate > 50 then LoanFormOutcome.invalidInterestRate
    else LoanFormOutcome.submitted

/-! ## Helper lemmas -/

/-- Hex digit values invert the uppercase hex digit characters. -/
lemma hexDigitVal?_hexUpperDigit : ∀ d, d < 16 → hexDigitVal? (hexUpperDigit d) = some d := by
  decide

set_option maxRecDepth 8192 in
/-- `parseInt(·, 16)` plus the `Uint8Array` coercion invert the two-digit
uppercase hex form of any byte. -/
lemma toUint8_parseIntHex_byteToHexUpper :
    ∀ b, b < 256 → toUint8 (parseIntHex (byteToHexUpper b)) = b := by
  decide

/-- `stringToHex` on an ASCII-leading string peels off one two-digit chunk. -/
lemma stringToHex_cons_ascii (c : Nat) (s : List Nat) (h : c < 128) :
    stringToHex (c :: s) = byteToHexUpper c ++ stringToHex s := by
  unfold stringToHex utf8Encode
  simp [utf8EncodeChar, h]

/-- `chunkPairs` groups an even-position split. -/
lemma chunkPairs_cons2 (a b : Nat) (l : List Nat) :
    chunkPairs (a :: b :: l) = [a, b] :: chunkPairs l := rfl

/-- `utf8Decode` passes an ASCII byte through. -/
lemma utf8Decode_cons_ascii (b : Nat) (l : List Nat) (h : b < 128) :
    utf8Decode (b :: l) = b :: utf8Decode l := by
  have hb : b ≤ 127 := by omega
  simp [utf8Decode, utf8DecodeGo, utf8StartByte, hb]

/-- `fundLoanWithRLUSD` rejects with the stable `MISSING_TRUSTLINE` error and
submits nothing whenever the internal trust-line check comes back `false`. -/
lemma fundLoanWithRLUSD_of_noTrustLine (linesFetch : Option (List TrustLineEntry))
    (funderAddress borrowerAddress : String) (amount : ℚ)
    (loanNFTId : Option String) (now : Nat)
    (submit : Payment → Except String String)
    (h : checkTrustLineExists linesFetch (strCodes "RLUSD") RLUSD_ISSUER = false) :
    fundLoanWithRLUSD linesFetch funderAddress borrowerAddress amount loanNFTId now submit
      = (Except.error "MISSING_TRUSTLINE", []) := by
  unfold fundLoanWithRLUSD
  simp [h]

/-! ## Claim theorems -/

/-- C9: for every printable-ASCII string, decoding the hex wire form yields
the original string back: `hexToString (stringToHex s) = s` — the memo
encode/decode round-trip of the identity-claim and loan-purpose flows. -/
theorem hexToString_stringToHex_roundtrip (s : List Nat)
    (h : ∀ c ∈ s, 32 ≤ c ∧ c ≤ 126) :
    hexToString (stringToHex s) = s := by
  induction s with
  | nil => decide
  | cons c rest ih =>
    obtain ⟨h32, h126⟩ := h c (List.mem_cons_self c rest)
    have hc128 : c < 128 := by omega
    rw [stringToHex_cons_ascii c rest hc128]
    show hexToString (hexUpperDigit (c / 16) :: hexUpperDigit (c % 16) :: stringToHex rest)
      = c :: rest
    unfold hexToString
    have hbyte := toUint8_parseIntHex_byteToHexUpper c (by omega)
    unfold byteToHexUpper at hbyte
    rw [chunkPairs_cons2, List.map_cons, hbyte, utf8Decode_cons_ascii c _ hc128]
    have ihrest := ih (fun x hx => h x (List.mem_cons_of_mem c hx))
    unfold hexToString at ihrest
    rw [ihrest]

/-- Witness for C9 at the concrete string `"Medical supplies"`. -/
theorem hexToString_stringToHex_roundtrip_witness :
    (∀ c ∈ strCodes "Medical supplies", 32 ≤ c ∧ c ≤ 126)
    ∧ hexToString (stringToHex (strCodes "Medical supplies"))
        = strCodes "Medical supplies" :=
  ⟨by decide, hexToString_stringToHex_roundtrip (strCodes "Medical supplies") (by decide)⟩

/-- C1: on the success path, `calculateTrustScore` computes the score as
activity points `min(⌊transactionCount / 10⌋, 20)` plus age points
`min(⌊sequence / 50⌋, 5)` when `sequence > 0` (else 0) plus 10 identity
points when identity-verified (else 0), and maps it to risk `low` for
`score > 20`, `medium` for `10 ≤ score ≤ 20`, `high` for `score < 10` —
so the result is a pure function of
`(transactionCount, identityVerified, sequence)`. -/
theorem calculateTrustScore_formula (txs : List LedgerTx) (ad : AccountData) :
    (calculateTrustScore (some txs) (some ad)).score
      = min (txs.length / 10) 20
        + (if ad.Sequence.getD 0 > 0 then min (ad.Sequence.getD 0 / 50) 5 else 0)
        + (if txs.any isDIDTx || hasDomainDIDCheck ad then 10 else 0)
    ∧ (calculateTrustScore (some txs) (some ad)).risk
      = (if 20 < (calculateTrustScore (some txs) (some ad)).score then "low"
         else if 10 ≤ (calculateTrustScore (some txs) (some ad)).score then "medium"
         else "high") := by
  unfold calculateTrustScore
  by_cases hseq : ad.Sequence.getD 0 > 0 <;>
    simp [hseq]

/-- C3: when the transaction-history lookup fails, `calculateTrustScore`
returns exactly the fail-closed default
`{score: 0, risk: 'high', factors: {hasDID: false, transactionCount: 0}}`
(and, being total, never throws), whatever the account-info fetch does. -/
theorem calculateTrustScore_failClosed (infoFetch : Option AccountData) :
    calculateTrustScore none infoFetch
      = { score := 0, risk := "high"
          factors := { hasDID := false, transactionCount := 0, accountAge := none } } :=
  rfl

/-- The account used to refute the C4 claim: its on-ledger domain decodes to
`microlend.did`, so identity verification is establishable via the domain
field, but its history holds no DID transaction. -/
def domainOnlyAccount : AccountData :=
  { Domain := some (stringToHex (strCodes "microlend.did")), Sequence := some 100 }

/-- C4 counterexample: it is not true that, when only the account-info fetch
fails, the 10 identity points are included whenever identity verification is
establishable at all — an account verified only through its domain field
(which the failed account-info fetch carries) gets a score of 0, not 10. -/
theorem calculateTrustScore_partialFailure_cex :
    ¬ (∀ (txs : List LedgerTx) (ad : AccountData),
        (calculateTrustScore (some txs) none).score
          = min (txs.length / 10) 20
            + (if identityEstablishable txs ad then 10 else 0)) := by
  intro hclaim
  have h := hclaim [] domainOnlyAccount
  revert h
  decide

/-- C4 as amended: when the history fetch succeeds and the account-info fetch
fails, `calculateTrustScore` still applies the activity points and the 10
identity points when a DID transaction is present in the fetched history, and
omits the age bonus together with the domain-based identity route (the domain
is part of the unavailable account data). -/
theorem calculateTrustScore_partialFailure (txs : List LedgerTx) :
    calculateTrustScore (some txs) none
      = { score := min (txs.length / 10) 20 + (if txs.any isDIDTx then 10 else 0)
          risk :=
            if 20 < min (txs.length / 10) 20 + (if txs.any isDIDTx then 10 else 0) then "low"
            else if 10 ≤ min (txs.length / 10) 20 + (if txs.any isDIDTx then 10 else 0) then
              "medium"
            else "high"
          factors := { hasDID := txs.any isDIDTx, transactionCount := txs.length
                       accountAge := none } } := by
  unfold calculateTrustScore
  simp

/-- C2: whenever the borrower's account lacks the RLUSD trust line to the
known issuer, `fundLoanWithRLUSD` rejects with the specific, stable
`MISSING_TRUSTLINE` signal (a fixed marker string, not a free-form message)
and hands no transaction to `submitAndWait` before rejecting. -/
theorem fundLoanWithRLUSD_missingTrustline (linesFetch : Option (List TrustLineEntry))
    (funderAddress borrowerAddress : String) (amount : ℚ)
    (loanNFTId : Option String) (now : Nat)
    (submit : Payment → Except String String)
    (h : checkTrustLineExists linesFetch (strCodes "RLUSD") RLUSD_ISSUER = false) :
    fundLoanWithRLUSD linesFetch funderAddress borrowerAddress amount loanNFTId now submit
      = (Except.error "MISSING_TRUSTLINE", []) :=
  fundLoanWithRLUSD_of_noTrustLine linesFetch funderAddress borrowerAddress amount
    loanNFTId now submit h

/-- Witness for C2: a borrower with an empty trust-line list. -/
theorem fundLoanWithRLUSD_missingTrustline_witness :
    checkTrustLineExists (some []) (strCodes "RLUSD") RLUSD_ISSUER = false
    ∧ fundLoanWithRLUSD (some []) "rFunder" "rBorrower" 100 (some "nftid") 1700000000
        (fun _ => Except.ok "ABCD")
      = (Except.error "MISSING_TRUSTLINE", []) :=
  ⟨rfl, fundLoanWithRLUSD_missingTrustline (some []) "rFunder" "rBorrower" 100
    (some "nftid") 1700000000 (fun _ => Except.ok "ABCD") rfl⟩

/-- C10: `checkTrustLineExists` returns `false` (never throws) when the
trust-line lookup itself fails, so `fundLoanWithRLUSD` rejects a failed
lookup with the very `MISSING_TRUSTLINE` signal it uses for a genuinely
absent trust line (an account whose `account_lines` result is empty) —
the two cases are indistinguishable to the caller. -/
theorem checkTrustLine_lookupFailure_indistinguishable :
    (∀ (currency : List Nat) (issuer : String),
      checkTrustLineExists none currency issuer = false)
    ∧ (∀ (funderAddress borrowerAddress : String) (amount : ℚ)
        (loanNFTId : Option String) (now : Nat)
        (submit : Payment → Except String String),
        fundLoanWithRLUSD none funderAddress borrowerAddress amount loanNFTId now submit
          = (Except.error "MISSING_TRUSTLINE", []))
    ∧ (∀ (funderAddress borrowerAddress : String) (amount : ℚ)
        (loanNFTId : Option String) (now : Nat)
        (submit : Payment → Except String String),
        fundLoanWithRLUSD none funderAddress borrowerAddress amount loanNFTId now submit
          = fundLoanWithRLUSD (some []) funderAddress borrowerAddress amount
              loanNFTId now submit) := by
  refine ⟨fun _ _ => rfl, fun f b a n t s => ?_, fun f b a n t s => ?_⟩
  · exact fundLoanWithRLUSD_of_noTrustLine none f b a n t s rfl
  · rw [fundLoanWithRLUSD_of_noTrustLine none f b a n t s rfl,
      fundLoanWithRLUSD_of_noTrustLine (some []) f b a n t s rfl]

/-- C5: whenever the funding flow records a loan update after a successful
funding transaction (RLUSD or the XRP fallback), it writes
`funded_amount = min(previous funded amount + funding amount, requested
amount)` — never exceeding the requested amount — and sets the status to
`funded`, regardless of whether that reaches full funding. -/
theorem handleFundLoan_update_capped (linesFetch : Option (List TrustLineEntry))
    (submitRLUSD submitXRP : Payment → Except String String)
    (userConfirmed : Bool) (userAddress : String) (loan : UILoan) (now : Nat) :
    ∀ upd ∈ (handleFundLoan linesFetch submitRLUSD submitXRP userConfirmed
        userAddress loan now).dbUpdates,
      upd.1 = loan.id
      ∧ upd.2.funded_amount = min (loan.fundedAmount + 100) loan.amount
      ∧ upd.2.funded_amount ≤ loan.amount
      ∧ upd.2.status = "funded" := by
  intro upd hupd
  have hmin : min (loan.fundedAmount + 100) loan.amount ≤ loan.amount :=
    min_le_right _ _
  unfold handleFundLoan at hupd
  simp only [] at hupd
  split at hupd
  · simp only [List.mem_singleton] at hupd
    subst hupd
    exact ⟨rfl, rfl, hmin, rfl⟩
  · split at hupd
    · split at hupd
      · split at hupd
        · simp only [List.mem_singleton] at hupd
          subst hupd
          exact ⟨rfl, rfl, hmin, rfl⟩
        · simp at hupd
      · simp at hupd
    · simp at hupd

/-- A concrete loan for the funding-flow witnesses: requests 1000, nothing
funded yet. -/
def demoLoan : UILoan :=
  { id := "loan-1", borrower := "rBorrower", amount := 1000, fundedAmount := 0
    nftId := "nft-1" }

/-- The single loan-record write of a concrete successful RLUSD funding run
(borrower trust-lined, 1000-RLUSD request, 100 paid): used as the C5 witness
member. -/
def loanUpdateDemo : String × LoanUpdate :=
  ("loan-1", updateLoanFunding (min ((0 : ℚ) + 100) 1000) (some "ABCD"))

/-- Witness for C5: a trust-lined borrower whose 1000-RLUSD loan receives a
partial 100 payment; the stored update caps at the request and still flips
the status to `funded`. -/
theorem handleFundLoan_update_capped_witness :
    loanUpdateDemo ∈ (handleFundLoan (some [⟨strCodes "RLUSD", RLUSD_ISSUER, "0"⟩])
        (fun _ => Except.ok "ABCD") (fun _ => Except.ok "EF01") true "rLender" demoLoan
        1700000000).dbUpdates
    ∧ (loanUpdateDemo.1 = demoLoan.id
       ∧ loanUpdateDemo.2.funded_amount = min (demoLoan.fundedAmount + 100) demoLoan.amount
       ∧ loanUpdateDemo.2.funded_amount ≤ demoLoan.amount
       ∧ loanUpdateDemo.2.status = "funded") :=
  ⟨List.mem_singleton.mpr rfl,
   handleFundLoan_update_capped (some [⟨strCodes "RLUSD", RLUSD_ISSUER, "0"⟩])
     (fun _ => Except.ok "ABCD") (fun _ => Except.ok "EF01") true "rLender" demoLoan
     1700000000 loanUpdateDemo (List.mem_singleton.mpr rfl)⟩

/-- The transaction list produced by `fundLoanWithXRP` is exactly its single
drops payment. -/
lemma fundLoanWithXRP_payments (funderAddress borrowerAddress : String) (amount : ℚ)
    (loanNFTId : String) (now : Nat) (submit : Payment → Except String String) :
    (fundLoanWithXRP funderAddress borrowerAddress amount loanNFTId now submit).2
      = [{ Account := funderAddress
           Destination := borrowerAddress
           Amount := XRPAmount.drops (amount * 1000000)
           Memos := [{ MemoType := stringToHex (strCodes "LOAN_FUNDING_XRP")
                       MemoData := { amount := amount
                                     loanNFTId := loanNFTId
                                     timestamp := now
                                     note := some "Funded with XRP as fallback due to missing RLUSD trust line" } }] }] :=
  rfl

/-- With the trust line missing, the payments submitted by `handleFundLoan`
are empty unless the user confirmed, in which case they are exactly those of
the XRP fallback call. -/
lemma handleFundLoan_payments_of_missing (linesFetch : Option (List TrustLineEntry))
    (submitRLUSD submitXRP : Payment → Except String String)
    (userConfirmed : Bool) (userAddress : String) (loan : UILoan) (now : Nat)
    (h : checkTrustLineExists linesFetch (strCodes "RLUSD") RLUSD_ISSUER = false) :
    (handleFundLoan linesFetch submitRLUSD submitXRP userConfirmed userAddress loan
        now).payments
      = if userConfirmed then
          (fundLoanWithXRP userAddress
            (if loan.borrower == "You" then userAddress else loan.borrower) 100
            loan.nftId now submitXRP).2
        else [] := by
  have hr := fundLoanWithRLUSD_of_noTrustLine linesFetch userAddress
    (if loan.borrower == "You" then userAddress else loan.borrower) 100
    (some loan.nftId) now submitRLUSD h
  unfold handleFundLoan
  simp only []
  rw [hr]
  cases userConfirmed with
  | false => rfl
  | true =>
    rcases hx : fundLoanWithXRP userAddress
        (if loan.borrower == "You" then userAddress else loan.borrower) 100
        loan.nftId now submitXRP with ⟨outcome2, submitted2⟩
    cases outcome2 <;> simp

/-- C6: when the RLUSD attempt fails with `MISSING_TRUSTLINE`, no XRP
fallback payment is ever submitted without the user's affirmative
confirmation (declined ⇒ no payment at all); on confirmed fallback the
submitted payment is for the same amount (100, converted to drops in the
`Amount` field and recorded verbatim in the memo payload) and is annotated
with the `LOAN_FUNDING_XRP` memo type, distinct from the `LOAN_FUNDING_RLUSD`
annotation of a stablecoin payment. -/
theorem handleFundLoan_xrpFallback_gated (linesFetch : Option (List TrustLineEntry))
    (submitRLUSD submitXRP : Payment → Except String String)
    (userAddress : String) (loan : UILoan) (now : Nat)
    (h : checkTrustLineExists linesFetch (strCodes "RLUSD") RLUSD_ISSUER = false) :
    (handleFundLoan linesFetch submitRLUSD submitXRP false userAddress loan now).payments = []
    ∧ ∀ p ∈ (handleFundLoan linesFetch submitRLUSD submitXRP true userAddress loan
        now).payments,
        p.Amount = XRPAmount.drops (100 * 1000000)
        ∧ p.Memos.map PaymentMemo.MemoType = [stringToHex (strCodes "LOAN_FUNDING_XRP")]
        ∧ (∀ m ∈ p.Memos, m.MemoData.amount = 100)
        ∧ stringToHex (strCodes "LOAN_FUNDING_XRP")
            ≠ stringToHex (strCodes "LOAN_FUNDING_RLUSD") := by
  constructor
  · rw [handleFundLoan_payments_of_missing linesFetch submitRLUSD submitXRP false
      userAddress loan now h]
    rfl
  · intro p hp
    rw [handleFundLoan_payments_of_missing linesFetch submitRLUSD submitXRP true
      userAddress loan now h] at hp
    simp only [if_true, fundLoanWithXRP_payments, List.mem_singleton] at hp
    subst hp
    exact ⟨rfl, rfl, fun m hm => by
      simp only [List.mem_singleton] at hm
      subst hm
      rfl, by decide⟩

/-- Witness for C6: a borrower with an empty trust-line list; declining the
prompt submits nothing, confirming submits only the annotated XRP payment. -/
theorem handleFundLoan_xrpFallback_gated_witness :
    checkTrustLineExists (some []) (strCodes "RLUSD") RLUSD_ISSUER = false
    ∧ ((handleFundLoan (some []) (fun _ => Except.ok "ABCD")
          (fun _ => Except.ok "EF01") false "rLender" demoLoan 1700000000).payments = []
       ∧ ∀ p ∈ (handleFundLoan (some []) (fun _ => Except.ok "ABCD")
            (fun _ => Except.ok "EF01") true "rLender" demoLoan 1700000000).payments,
          p.Amount = XRPAmount.drops (100 * 1000000)
          ∧ p.Memos.map PaymentMemo.MemoType = [stringToHex (strCodes "LOAN_FUNDING_XRP")]
          ∧ (∀ m ∈ p.Memos, m.MemoData.amount = 100)
          ∧ stringToHex (strCodes "LOAN_FUNDING_XRP")
              ≠ stringToHex (strCodes "LOAN_FUNDING_RLUSD")) :=
  ⟨rfl, handleFundLoan_xrpFallback_gated (some []) (fun _ => Except.ok "ABCD")
    (fun _ => Except.ok "EF01") "rLender" demoLoan 1700000000 rfl⟩

/-- C7: the loan-form validation happens before any network call, rejects
amount 0 and 50001 and interest rates 0.05 and 50.1, accepts amount 1 and
50000 and rates 0.1 and 50 — in general a filled form proceeds iff
`1 ≤ amount ≤ 50000` and `0.1 ≤ rate ≤ 50`. -/
theorem handleSubmit_validation_ranges :
    (∀ amount rate : ℚ,
      handleSubmitValidate true true (some amount) "Buy farm equipment" (some rate)
          "30 days" = LoanFormOutcome.submitted
        ↔ (1 ≤ amount ∧ amount ≤ 50000 ∧ 1/10 ≤ rate ∧ rate ≤ 50))
    ∧ handleSubmitValidate true true (some 0) "Buy farm equipment" (some 5) "30 days"
        = LoanFormOutcome.invalidAmount
    ∧ handleSubmitValidate true true (some 50001) "Buy farm equipment" (some 5) "30 days"
        = LoanFormOutcome.invalidAmount
    ∧ handleSubmitValidate true true (some 500) "Buy farm equipment" (some (1/20)) "30 days"
        = LoanFormOutcome.invalidInterestRate
    ∧ handleSubmitValidate true true (some 500) "Buy farm equipment" (some (501/10)) "30 days"
        = LoanFormOutcome.invalidInterestRate
    ∧ handleSubmitValidate true true (some 1) "Buy farm equipment" (some (1/10)) "30 days"
        = LoanFormOutcome.submitted
    ∧ handleSubmitValidate true true (some 50000) "Buy farm equipment" (some 50) "30 days"
        = LoanFormOutcome.submitted := by
  constructor
  · intro amount rate
    unfold handleSubmitValidate
    norm_num
    constructor
    · intro hsub
      split_ifs at hsub with hs h1 h2
      all_goals simp at hsub
      push_neg at h1 h2
      exact ⟨h1.1, h1.2, h2.1, h2.2⟩
    · rintro ⟨ha1, ha2, hr1, hr2⟩
      rw [if_neg (by decide), if_neg (by push_neg; exact ⟨ha1, ha2⟩),
        if_neg (by push_neg; exact ⟨hr1, hr2⟩)]
  refine ⟨?_, ?_, ?_, ?_, ?_, ?_⟩ <;>
  · unfold handleSubmitValidate
    norm_num
    rintro (hg | hg) <;> exact absurd hg (by decide)

/-- One step of the `getCurrentDIDData` loop: the head transaction either
decodes to a claim (returned) or the loop moves on to the tail. -/
lemma didDataLoop_cons (jsonParse : List Nat → Option DIDJson) (tx : LedgerTx)
    (rest : List LedgerTx) :
    didDataLoop jsonParse (tx :: rest)
      = match decodeDIDClaim jsonParse tx with
        | some d => some d
        | none => didDataLoop jsonParse rest := by
  simp only [didDataLoop]
  unfold decodeDIDClaim
  by_cases hcond : (tx.TransactionType == "AccountSet" && tx.Memos.isSome) = true
  · rw [if_pos hcond, if_pos hcond]
    cases hfind : (tx.Memos.getD []).find? isDIDVerificationMemo with
    | none => simp
    | some didMemo =>
      cases hdata : didMemo.MemoData with
      | none => simp [hdata]
      | some memoData =>
        by_cases hne : memoData = []
        · simp [hdata, hne]
        · cases hjson : jsonParse (hexToString memoData) with
          | none => simp [hdata, hne, hjson]
          | some didJson => simp [hdata, hne, hjson]
  · rw [if_neg hcond, if_neg hcond]

/-- C8: identity-claim retrieval scans the fetched history in response order
(newest first) and returns the decoded record of the first structurally valid
claim — an `AccountSet` transaction whose `DID_VERIFICATION` memo carries
data that parses — silently skipping every entry that fails to decode, and
returns `null` (never throws) when no valid claim exists or the lookup
fails. -/
theorem getCurrentDIDData_firstValid (jsonParse : List Nat → Option DIDJson) :
    getCurrentDIDData jsonParse none = none
    ∧ ∀ transactions : List LedgerTx,
        getCurrentDIDData jsonParse (some transactions)
          = transactions.findSome? (decodeDIDClaim jsonParse) := by
  refine ⟨rfl, ?_⟩
  intro txs
  show didDataLoop jsonParse txs = txs.findSome? (decodeDIDClaim jsonParse)
  induction txs with
  | nil => rfl
  | cons tx rest ih =>
    rw [didDataLoop_cons]
    simp only [List.findSome?]
    cases decodeDIDClaim jsonParse tx with
    | none => exact ih
    | some d => rfl

end Microloan
